import Mathlib

/-!
Formal model of the BSC-Testnet wallet-operations package
(`bsc_wallet/wallet_generator.py`, `bsc_wallet/bnb_transfer.py`,
`bsc_wallet/token_transfer.py`, `bsc_wallet/config.py`).

Pure Python functions are embedded as Lean functions.  Network and
cryptographic collaborators (web3 RPC calls, BIP39/BIP44 primitives,
secp256k1 signing) are modelled as explicit record-of-functions
parameters, so every operation of the package becomes a pure function of
its inputs and of the collaborator record.  Decimal amounts are modelled
with exact rational arithmetic; Python `int()` truncation is modelled
explicitly.  Text matching (`str.lower()`, the `in` substring operator)
is modelled over lists of characters.
-/

namespace BscWallet

/-! ## Text helpers (Python string operations) -/

/-- Python `str.lower()` applied before error matching, as a character list. -/
def pyLower (s : String) : List Char := s.toList.map Char.toLower

/-- True when the first list is an initial segment of the second. -/
def leadsWith : List Char → List Char → Bool
  | [], _ => true
  | _ :: _, [] => false
  | p :: ps, c :: cs => (p = c) && leadsWith ps cs

/-- Substring occurrence over character lists. -/
def hasSubList (pat : List Char) : List Char → Bool
  | [] => pat.isEmpty
  | c :: rest => leadsWith pat (c :: rest) || hasSubList pat rest

/-- Python substring operator `pat in s`, over character lists. -/
def hasSub (pat : String) (s : List Char) : Bool := hasSubList pat.toList s

/-- Python `int()` on an exact rational: truncation toward zero. -/
def pyInt (q : ℚ) : ℤ := if 0 ≤ q then ⌊q⌋ else -⌊-q⌋

/-! ## Configuration constants (`config.py`) -/

def BSC_TESTNET_CHAIN_ID : ℕ := 97
def DEFAULT_GAS_LIMIT : ℕ := 21000
def TOKEN_TRANSFER_GAS_LIMIT : ℕ := 100000
def DEFAULT_GAS_PRICE : ℕ := 20000000000

/-! ## Error taxonomy -/

/-- Classified broadcast-layer outcomes.  The first six constructors are
the taxonomy variants produced by the native broadcaster; a raw transport
error that is re-raised without classification is `rawUnclassified`. -/
inductive BroadcastError where
  | insufficientFunds
  | nonceTooLow
  | nonceTooHigh
  | gasPriceTooLow
  | intrinsicGasTooLow
  | networkConnection
  | broadcastFailed (msg : List Char)
  | rawUnclassified (msg : List Char)
  deriving DecidableEq, Repr

/-- Errors raised by the wallet operations. -/
inductive WalletError where
  | invalidAddress
  | invalidMnemonic
  | invalidAmount
  | insufficientBalance (available required : ℚ)
  | broadcast (e : BroadcastError)
  deriving DecidableEq, Repr

/-! ## Broadcast error classification

`BNBTransfer.broadcast_transaction` (bnb_transfer.py lines 207 to 225)
lowercases the raised error text and matches fixed substrings in order;
anything unmatched becomes a generic broadcast-failed error carrying the
original message.  `TokenTransfer.broadcast_transaction`
(token_transfer.py lines 304 to 306) only logs and re-raises the raw
exception, performing no classification at all. -/

/-- Native-path classification of a broadcast failure message. -/
def bnbClassifyBroadcastError (msg : String) : BroadcastError :=
  let e := pyLower msg
  if hasSub "insufficient funds" e then .insufficientFunds
  else if hasSub "nonce too low" e then .nonceTooLow
  else if hasSub "nonce too high" e then .nonceTooHigh
  else if hasSub "gas price too low" e then .gasPriceTooLow
  else if hasSub "intrinsic gas too low" e then .intrinsicGasTooLow
  else if hasSub "connection" e || hasSub "timeout" e then .networkConnection
  else .broadcastFailed msg.toList

/-- Token-path handling of a broadcast failure message: the raw error is
re-raised unchanged. -/
def tokenBroadcastError (msg : String) : BroadcastError :=
  .rawUnclassified msg.toList

/-- True when none of the six native patterns matches the message. -/
def noPatternMatches (msg : String) : Bool :=
  let e := pyLower msg
  !(hasSub "insufficient funds" e) && !(hasSub "nonce too low" e) &&
  !(hasSub "nonce too high" e) && !(hasSub "gas price too low" e) &&
  !(hasSub "intrinsic gas too low" e) &&
  !(hasSub "connection" e) && !(hasSub "timeout" e)

/-- True exactly on the unclassified (raw re-raise) constructor. -/
def BroadcastError.isRaw : BroadcastError → Bool
  | .rawUnclassified _ => true
  | _ => false

/-! ## Amount conversion

`create_token_transfer_transaction` (token_transfer.py line 231) scales a
human-readable amount with `amount_raw = int(amount * (10 ** decimals))`;
`get_token_balance` (token_transfer.py line 164) converts back with
`balance_formatted = balance_raw / (10 ** decimals)`.  Both are modelled
in exact rational arithmetic. -/

/-- Embedding of `int(amount * (10 ** decimals))`. -/
def amountRaw (amount : ℚ) (decimals : ℕ) : ℤ := pyInt (amount * 10 ^ decimals)

/-- Embedding of `balance_raw / (10 ** decimals)`. -/
def balanceFormatted (raw : ℤ) (decimals : ℕ) : ℚ := (raw : ℚ) / 10 ^ decimals

/-- Modelled from the spec: `toBaseUnits(amount, decimals)` returns
`round(amount * 10 ^ decimals)` in exact decimal arithmetic and fails
with `InvalidAmount` if `amount < 0` (spec section 4.3).  Stated only to
be compared against `amountRaw`, the conversion the code performs. -/
def toBaseUnits_spec (amount : ℚ) (decimals : ℕ) : Except WalletError ℤ :=
  if amount < 0 then .error .invalidAmount
  else .ok (round (amount * 10 ^ decimals))

/-! ## BIP44 derivation (`wallet_generator.py`)

`derive_wallet_from_mnemonic` builds a bip-utils context chain
`Bip44.FromSeed(seed, ETHEREUM).Purpose().Coin().Account(account_index)
.Change(CHAIN_EXT).AddressIndex(0)`.  Each call appends one child step:
Purpose gives hardened 44, Coin gives hardened 60 for the Ethereum coin
type, Account gives the hardened account index, Change(CHAIN_EXT) gives
index 0, AddressIndex(0) gives index 0.  A step is a pair of the child
index and a hardening flag. -/

/-- One hierarchical child step: index and hardened flag. -/
abbrev PathStep := ℕ × Bool

/-- The child steps actually walked by `derive_wallet_from_mnemonic`
for a given `account_index` (wallet_generator.py lines 79 to 82). -/
def derivedSteps (accountIndex : ℕ) : List PathStep :=
  [(44, true), (60, true), (accountIndex, true), (0, false), (0, false)]

/-- Modelled from the spec: the steps named by the path template
m/44h/60h/0h/0/index of section 4.2 (h marks a hardened step), with the
account index as the variable leaf address index. -/
def specSteps (accountIndex : ℕ) : List PathStep :=
  [(44, true), (60, true), (0, true), (0, false), (accountIndex, false)]

/-- Hardening marker character (ASCII apostrophe) used in path strings. -/
def tick : String := String.singleton (Char.ofNat 39)

/-- Renders a list of steps in the usual path notation, one segment per
step, hardened steps marked. -/
def pathString (steps : List PathStep) : String :=
  "m" ++ String.join
    (steps.map fun s => "/" ++ toString s.1 ++ if s.2 then tick else "")

/-- The `bip44_path` string stored in the returned wallet dictionary
(wallet_generator.py line 99). -/
def recordedPath (accountIndex : ℕ) : String :=
  "m/44" ++ tick ++ "/60" ++ tick ++ "/0" ++ tick ++ "/0/" ++
    toString accountIndex

/-! ## Wallet derivation pipeline

The cryptographic collaborators (BIP39 checksum validation, BIP39 seed
stretching, the BIP32 child-key walk, public-key and address
computation) are deterministic black boxes per spec section 1; they are
modelled as a record of pure functions.  Bytes are lists of naturals. -/

/-- Deterministic cryptographic primitives used by the wallet generator. -/
structure CryptoPrims where
  validateMnemonic : String → Bool
  seedOfMnemonic : String → List ℕ
  privKeyAtSteps : List ℕ → List PathStep → List ℕ
  pubKeyOfPriv : List ℕ → String
  addressOfPriv : List ℕ → String

/-- The wallet dictionary returned by `derive_wallet_from_mnemonic`. -/
structure Wallet where
  mnemonic : String
  privateKey : List ℕ
  publicKey : String
  address : String
  bip44Path : String
  deriving DecidableEq, Repr

/-- Embedding of `derive_wallet_from_mnemonic` (wallet_generator.py
lines 60 to 107): validate the mnemonic, stretch it to a seed, walk the
context chain to the leaf private key, compute public key and address,
and record the path string from line 99. -/
def derive_wallet_from_mnemonic (p : CryptoPrims) (mnemonic : String)
    (accountIndex : ℕ) : Except WalletError Wallet :=
  if ¬ p.validateMnemonic mnemonic then .error .invalidMnemonic
  else
    let seed := p.seedOfMnemonic mnemonic
    let pk := p.privKeyAtSteps seed (derivedSteps accountIndex)
    .ok { mnemonic := mnemonic
          privateKey := pk
          publicKey := p.pubKeyOfPriv pk
          address := p.addressOfPriv pk
          bip44Path := recordedPath accountIndex }

/-- A concrete primitive record used to evaluate the derivation pipeline
on closed inputs. -/
def testPrims : CryptoPrims where
  validateMnemonic := fun _ => true
  seedOfMnemonic := fun m => m.toList.map Char.toNat
  privKeyAtSteps := fun seed steps => seed ++ steps.map Prod.fst
  pubKeyOfPriv := fun pk => toString pk.length
  addressOfPriv := fun pk => toString (pk.foldl (· + ·) 0)

/-! ## Chain collaborator and transactions

The web3 RPC client and the account utilities are modelled as one record
of pure functions; a distinct record value stands for a distinct
observed chain state.  The handlers keep no other state between calls:
every piece of chain data a pipeline uses is read through this record at
call time. -/

/-- An unsigned transaction dictionary.  `data` is `none` for a native
transfer and holds the encoded transfer call (checksummed recipient and
raw base-unit amount) for a token transfer. -/
structure Tx where
  nonce : ℕ
  toAddr : String
  value : ℤ
  gas : ℕ
  gasPrice : ℕ
  chainId : ℕ
  data : Option (String × ℤ)
  deriving DecidableEq, Repr

/-- Observed chain state and stateless web3/eth-account collaborators. -/
structure ChainState where
  isAddress : String → Bool
  toChecksum : String → String
  balanceWei : String → ℕ
  txCount : String → ℕ
  gasPriceResult : Option ℕ
  sendRawResult : String → Except String String
  addressOfKey : String → String
  signRaw : Tx → List Char → String

/-- Embedding of `estimate_gas_price` (both transfer modules): the
network gas price when the call succeeds, the configured default when it
fails. -/
def estimate_gas_price (c : ChainState) : ℕ :=
  c.gasPriceResult.getD DEFAULT_GAS_PRICE

/-- Embedding of `web3.to_wei(amount_bnb, ether)`: scaling by ten to the
eighteenth in exact decimal arithmetic, then integer conversion. -/
def toWei (amount : ℚ) : ℤ := pyInt (amount * 10 ^ 18)

/-- Embedding of `BNBTransfer.get_balance` (bnb_transfer.py lines 57 to
92): validate, checksum, read the wei balance, and convert to a decimal
native-unit balance.  Returns the checksummed address, the wei balance
and the converted balance. -/
def get_balance (c : ChainState) (address : String) :
    Except WalletError (String × ℕ × ℚ) :=
  if ¬ c.isAddress address then .error .invalidAddress
  else
    let cs := c.toChecksum address
    let wei := c.balanceWei cs
    .ok (cs, wei, (wei : ℚ) / 10 ^ 18)

/-- Embedding of `BNBTransfer.create_transaction` (bnb_transfer.py lines
109 to 159): validate both addresses, checksum them, convert the amount
to wei, resolve the gas price, read the nonce fresh from the chain, and
assemble the transaction dictionary. -/
def create_transaction (c : ChainState) (fromAddress toAddress : String)
    (amountBnb : ℚ) (gasPrice : Option ℕ) : Except WalletError Tx :=
  if ¬ c.isAddress fromAddress then .error .invalidAddress
  else if ¬ c.isAddress toAddress then .error .invalidAddress
  else
    let fromCs := c.toChecksum fromAddress
    let toCs := c.toChecksum toAddress
    let amountWei := toWei amountBnb
    let gp := match gasPrice with
      | some g => g
      | none => estimate_gas_price c
    let nonce := c.txCount fromCs
    .ok { nonce := nonce, toAddr := toCs, value := amountWei
          gas := DEFAULT_GAS_LIMIT, gasPrice := gp
          chainId := BSC_TESTNET_CHAIN_ID, data := none }

/-- Embedding of the two-character key-normalization step shared by both
`sign_transaction` implementations (bnb_transfer.py lines 174 to 175,
token_transfer.py lines 271 to 272): drop a leading 0x if present. -/
def strip0x (k : List Char) : List Char :=
  if k.take 2 = ['0', 'x'] then k.drop 2 else k

/-- Embedding of `sign_transaction` (identical in bnb_transfer.py lines
161 to 185 and token_transfer.py lines 258 to 282): normalize the key,
then hand transaction and key to the web3 account signer. -/
def sign_transaction (c : ChainState) (tx : Tx) (privateKey : String) :
    String :=
  c.signRaw tx (strip0x privateKey.toList)

/-- Embedding of `BNBTransfer.broadcast_transaction` (bnb_transfer.py
lines 187 to 225): submit, and on failure classify the error text. -/
def broadcast_transaction (c : ChainState) (signedTx : String) :
    Except BroadcastError String :=
  match c.sendRawResult signedTx with
  | .ok h => .ok h
  | .error msg => .error (bnbClassifyBroadcastError msg)

/-- Embedding of `TokenTransfer.broadcast_transaction`
(token_transfer.py lines 284 to 306): submit, and on failure re-raise
the raw transport error unchanged. -/
def token_broadcast_transaction (c : ChainState) (signedTx : String) :
    Except BroadcastError String :=
  match c.sendRawResult signedTx with
  | .ok h => .ok h
  | .error msg => .error (tokenBroadcastError msg)

/-! ## Native send pipeline (`send_bnb`)

`send_bnb` (bnb_transfer.py lines 270 to 334) derives the sender
address from the key, checks the balance, and only then builds, signs
and broadcasts.  To reason about which stages ran, the embedding also
returns the list of pipeline stages that completed. -/

/-- Pipeline stages of a send, in execution order. -/
inductive Stage where
  | builtTx
  | signedTx
  | broadcastTx
  deriving DecidableEq, Repr

/-- Result record of a successful native send (before any confirmation
waiting). -/
structure SendOutcome where
  txHash : String
  fromAddress : String
  toAddress : String
  amountBnb : ℚ
  deriving DecidableEq, Repr

/-- Embedding of `send_bnb` (bnb_transfer.py lines 270 to 334) up to the
optional confirmation wait: resolve the sender address, read the
balance, gate on it, then create, sign and broadcast.  The second
component records which stages completed. -/
def send_bnb (c : ChainState) (privateKey toAddress : String)
    (amountBnb : ℚ) : Except WalletError SendOutcome × List Stage :=
  let fromAddress := c.addressOfKey privateKey
  match get_balance c fromAddress with
  | .error e => (.error e, [])
  | .ok (_, _, balanceBnb) =>
    if balanceBnb < amountBnb then
      (.error (.insufficientBalance balanceBnb amountBnb), [])
    else
      match create_transaction c fromAddress toAddress amountBnb none with
      | .error e => (.error e, [])
      | .ok tx =>
        let signedTx := sign_transaction c tx privateKey
        match broadcast_transaction c signedTx with
        | .error e => (.error (.broadcast e), [.builtTx, .signedTx])
        | .ok h =>
            (.ok { txHash := h, fromAddress := fromAddress
                   toAddress := toAddress, amountBnb := amountBnb },
             [.builtTx, .signedTx, .broadcastTx])

/-! ## Token contract collaborator (`token_transfer.py`)

A deployed token contract is modelled by the outcomes of its five
read-only calls; `none` stands for a call that raises. -/

/-- Call outcomes of one token contract. -/
structure TokenContract where
  nameResult : Option String
  symbolResult : Option String
  decimalsResult : Option ℕ
  totalSupplyResult : Option ℕ
  balanceOfResult : String → Option ℕ

/-- The token-information dictionary built by `get_token_info`. -/
structure TokenInfo where
  address : String
  name : String
  symbol : String
  decimals : ℕ
  totalSupply : ℕ
  deriving DecidableEq, Repr

/-- Embedding of `get_token_info` (token_transfer.py lines 87 to 135):
validate the contract address, then read each field with a
per-field fallback — name falls back to Unknown, symbol to UNK,
decimals to 18, total supply to 0 when the contract call raises. -/
def get_token_info (c : ChainState) (tok : TokenContract)
    (tokenAddress : String) : Except WalletError TokenInfo :=
  if ¬ c.isAddress tokenAddress then .error .invalidAddress
  else
    .ok { address := c.toChecksum tokenAddress
          name := tok.nameResult.getD "Unknown"
          symbol := tok.symbolResult.getD "UNK"
          decimals := tok.decimalsResult.getD 18
          totalSupply := tok.totalSupplyResult.getD 0 }

/-- Embedding of `create_token_transfer_transaction` (token_transfer.py
lines 198 to 256): load contract and token info, validate addresses,
scale the amount by the resolved decimals, resolve the gas price, read
the nonce fresh, and build the contract-call transaction: recipient set
to the token contract, value 0, the transfer payload in `data`. -/
def create_token_transfer_transaction (c : ChainState)
    (tok : TokenContract) (tokenAddress fromAddress toAddress : String)
    (amount : ℚ) (gasPrice : Option ℕ) : Except WalletError Tx :=
  match get_token_info c tok tokenAddress with
  | .error e => .error e
  | .ok info =>
    if ¬ c.isAddress fromAddress then .error .invalidAddress
    else if ¬ c.isAddress toAddress then .error .invalidAddress
    else
      let fromCs := c.toChecksum fromAddress
      let toCs := c.toChecksum toAddress
      let raw := amountRaw amount info.decimals
      let gp := match gasPrice with
        | some g => g
        | none => estimate_gas_price c
      let nonce := c.txCount fromCs
      .ok { nonce := nonce, toAddr := c.toChecksum tokenAddress
            value := 0, gas := TOKEN_TRANSFER_GAS_LIMIT, gasPrice := gp
            chainId := BSC_TESTNET_CHAIN_ID, data := some (toCs, raw) }

/-! ## Confirmation watching

`wait_for_confirmation` (bnb_transfer.py lines 227 to 268, identical in
token_transfer.py lines 308 to 349) polls the receipt source while the
elapsed time is below the timeout, sleeping 2 seconds between polls; a
missing receipt (the collaborator raising) is swallowed and polling
continues; a present receipt maps status bit 1 to Success and anything
else to Failed.  Time is modelled discretely: the receipt source is a
function of the elapsed seconds at which the poll happens, and polls
happen at 0, 2, 4, ... . -/

/-- A transaction receipt. -/
structure Receipt where
  status : ℕ
  gasUsed : ℕ
  blockNumber : ℕ
  deriving DecidableEq, Repr

/-- The confirmation result dictionary. -/
structure ConfResult where
  txHash : String
  status : String
  gasUsed : ℕ
  blockNumber : ℕ
  confirmationTime : ℕ
  deriving DecidableEq, Repr

/-- The polling loop of `wait_for_confirmation`, at elapsed time `t`:
poll while `t < timeout`; on a receipt return the result with the status
decided by the status bit; otherwise sleep 2 seconds and repeat; once
the deadline has passed raise the timeout error, carrying the elapsed
time at which the loop gave up. -/
def wait_loop (getReceipt : ℕ → Option Receipt) (txHash : String)
    (timeout t : ℕ) : Except ℕ ConfResult :=
  if t < timeout then
    match getReceipt t with
    | some r =>
        .ok { txHash := txHash
              status := if r.status = 1 then "Success" else "Failed"
              gasUsed := r.gasUsed, blockNumber := r.blockNumber
              confirmationTime := t }
    | none => wait_loop getReceipt txHash timeout (t + 2)
  else .error t
  termination_by timeout - t
  decreasing_by omega

/-- Embedding of `wait_for_confirmation`: run the polling loop from
elapsed time 0. -/
def wait_for_confirmation (getReceipt : ℕ → Option Receipt)
    (txHash : String) (timeout : ℕ) : Except ℕ ConfResult :=
  wait_loop getReceipt txHash timeout 0

/-! ## Concrete collaborator instances used to evaluate the pipelines -/

/-- A concrete chain state: every string is a valid address, checksums
are the identity, balances are zero, the transaction count is 7, the
gas-price call fails, and submission fails with a connection error. -/
def testChain : ChainState where
  isAddress := fun _ => true
  toChecksum := id
  balanceWei := fun _ => 0
  txCount := fun _ => 7
  gasPriceResult := none
  sendRawResult := fun _ => .error "connection refused"
  addressOfKey := fun _ => "0xsender"
  signRaw := fun tx k => String.mk k ++ toString tx.nonce

/-- A concrete token contract whose decimals call raises and whose other
read calls succeed. -/
def noDecTok : TokenContract where
  nameResult := some "Sample"
  symbolResult := some "SMP"
  decimalsResult := none
  totalSupplyResult := some 1000
  balanceOfResult := fun _ => some 0

/-- A concrete token contract with all read calls succeeding and 6
decimals. -/
def tokSix : TokenContract where
  nameResult := some "Sample"
  symbolResult := some "SMP"
  decimalsResult := some 6
  totalSupplyResult := some 1000
  balanceOfResult := fun _ => some 0

/-- A concrete transaction used to instantiate signing statements. -/
def tx0 : Tx where
  nonce := 0
  toAddr := "b"
  value := 1
  gas := DEFAULT_GAS_LIMIT
  gasPrice := DEFAULT_GAS_PRICE
  chainId := BSC_TESTNET_CHAIN_ID
  data := none

/-! ## Claim theorems -/

/-- Claim C1 (code bug, evaluated at the failing input): at account
index 1 the recorded path string does name the leaf of the path template
of the spec, but the steps the code actually walks differ from the
template steps, and rendering the walked steps does not give the
recorded path — the code derives along m/44h/60h/1h/0/0 while recording
m/44h/60h/0h/0/1. -/
theorem derived_path_mismatch_at_index_one :
    recordedPath 1 = pathString (specSteps 1) ∧
    derivedSteps 1 ≠ specSteps 1 ∧
    pathString (derivedSteps 1) ≠ recordedPath 1 := by decide

/-- Claim C2: for a fixed primitive record, mnemonic and account index,
any two successful calls of the derivation pipeline return the same
private key bytes and the same address — the pipeline consumes no
randomness and keeps no state. -/
theorem derive_wallet_deterministic (p : CryptoPrims) (m : String)
    (i : ℕ) (w₁ w₂ : Wallet)
    (h₁ : derive_wallet_from_mnemonic p m i = .ok w₁)
    (h₂ : derive_wallet_from_mnemonic p m i = .ok w₂) :
    w₁.privateKey = w₂.privateKey ∧ w₁.address = w₂.address := by
  rw [h₁] at h₂
  injection h₂ with h
  subst h
  exact ⟨rfl, rfl⟩

/-- The concrete wallet derived by `testPrims` from the mnemonic abc at
account index 0. -/
def wAbc : Wallet where
  mnemonic := "abc"
  privateKey := [97, 98, 99, 44, 60, 0, 0, 0]
  publicKey := "8"
  address := "398"
  bip44Path := recordedPath 0

/-- Witness for C2 at a concrete primitive record, mnemonic and index. -/
theorem derive_wallet_deterministic_witness :
    wAbc.privateKey = wAbc.privateKey ∧ wAbc.address = wAbc.address :=
  derive_wallet_deterministic testPrims "abc" 0 wAbc wAbc rfl rfl

/-- Claim C10: signing with a 0x-prefixed key equals signing with the
bare key, for any chain collaborator and transaction, whenever the bare
key does not itself carry the prefix: both implementations strip the
prefix before handing the key to the signer. -/
theorem sign_key_prefix_agnostic (c : ChainState) (tx : Tx) (k : String)
    (hk : k.toList.take 2 ≠ ['0', 'x']) :
    sign_transaction c tx ("0x" ++ k) = sign_transaction c tx k := by
  have hl : ("0x" ++ k).toList = '0' :: 'x' :: k.toList := by
    simp [String.toList, String.data_append]
  simp only [String.toList] at hk
  simp [sign_transaction, strip0x, hl, hk]

/-- Witness for C10 at a concrete chain, transaction and key. -/
theorem sign_key_prefix_agnostic_witness :
    sign_transaction testChain tx0 ("0x" ++ "ab") =
      sign_transaction testChain tx0 "ab" :=
  sign_key_prefix_agnostic testChain tx0 "ab" (by decide)

/-- A rational equal to an integer has denominator one. -/
lemma den_one_of_eq_int (q : ℚ) (n : ℤ) (h : q = (n : ℚ)) : q.den = 1 := by
  rw [h]
  exact Rat.den_intCast n

/-- Truncation toward zero is exact on rationals with denominator one. -/
lemma pyInt_of_den_one (q : ℚ) (hq : q.den = 1) : (pyInt q : ℚ) = q := by
  have hq' : ((q.num : ℚ)) = q := by
    conv_rhs => rw [← Rat.num_div_den q]
    rw [hq]
    simp
  have h1 : ⌊q⌋ = q.num := by
    rw [← hq']
    exact Int.floor_intCast _
  have h2 : ⌊-q⌋ = -q.num := by
    rw [← hq', ← Int.cast_neg]
    exact Int.floor_intCast _
  unfold pyInt
  split
  · rw [h1]
    exact hq'
  · rw [h2]
    push_cast
    simpa using hq'

/-- Claim C3 (amended): the conversion the code performs is truncation
toward zero of the exactly scaled amount — on amounts exactly
representable at the given scale it agrees with the exact scaling, and a
negative amount is not rejected but silently yields a nonpositive raw
value. -/
theorem amountRaw_behavior (a : ℚ) (d : ℕ) :
    ((a * 10 ^ d).den = 1 → (amountRaw a d : ℚ) = a * 10 ^ d) ∧
    (a < 0 → amountRaw a d ≤ 0) := by
  constructor
  · intro h
    exact pyInt_of_den_one _ h
  · intro h
    have hneg : a * 10 ^ d < 0 :=
      mul_neg_of_neg_of_pos h (by positivity)
    unfold amountRaw pyInt
    split
    · rename_i hge
      exact absurd hneg (not_lt.mpr hge)
    · have hfl : (0 : ℤ) ≤ ⌊-(a * 10 ^ d)⌋ :=
        Int.floor_nonneg.mpr (by linarith)
      omega

/-- Witness for C3 (amended) at a representable and a negative input. -/
theorem amountRaw_behavior_witness :
    ((amountRaw (11 / 10) 1 : ℚ) = 11 / 10 * 10 ^ 1) ∧
    amountRaw (-1) 2 ≤ 0 :=
  ⟨(amountRaw_behavior (11 / 10) 1).1
     (den_one_of_eq_int _ 11 (by norm_num)),
   (amountRaw_behavior (-1) 2).2 (by norm_num)⟩

/-- Counterexample for C3 as stated: at amount 3/5 and zero decimals the
code truncates to 0 while the spec rounding returns 1, and at amount -1
the code returns -1 while the spec fails with the invalid-amount
error. -/
theorem amountRaw_not_spec_rounding :
    amountRaw (3 / 5) 0 = 0 ∧
    toBaseUnits_spec (3 / 5) 0 = .ok 1 ∧
    amountRaw (-1) 0 = -1 ∧
    toBaseUnits_spec (-1) 0 = .error .invalidAmount := by
  refine ⟨?_, ?_, ?_, ?_⟩
  · norm_num [amountRaw, pyInt]
  · norm_num [toBaseUnits_spec, round_eq]
  · norm_num [amountRaw, pyInt]
  · norm_num [toBaseUnits_spec]

/-- Claim C4: scaling a non-negative amount that is exactly
representable at scale d to base units and formatting it back is the
identity, for each of the scales 0, 6, 8 and 18. -/
theorem round_trip_exact (x : ℚ) (d : ℕ) (hx : 0 ≤ x)
    (hrep : (x * 10 ^ d).den = 1)
    (hd : d = 0 ∨ d = 6 ∨ d = 8 ∨ d = 18) :
    balanceFormatted (amountRaw x d) d = x := by
  unfold balanceFormatted
  rw [show ((amountRaw x d : ℚ)) = x * 10 ^ d from pyInt_of_den_one _ hrep]
  exact mul_div_cancel_right₀ x (by positivity)

/-- Witness for C4 at amount 3/2 and scale 6. -/
theorem round_trip_exact_witness :
    balanceFormatted (amountRaw (3 / 2) 6) 6 = 3 / 2 :=
  round_trip_exact (3 / 2) 6 (by norm_num)
    (den_one_of_eq_int _ 1500000 (by norm_num))
    (Or.inr (Or.inl rfl))

/-- Claim C5: when the requested amount exceeds the decimal balance the
send pipeline fails with the insufficient-balance error carrying the
available balance and the request, and no stage runs — the transaction
is neither built nor signed nor broadcast. -/
theorem send_bnb_balance_gate (c : ChainState)
    (privateKey toAddress : String) (amountBnb : ℚ)
    (hv : c.isAddress (c.addressOfKey privateKey) = true)
    (hlt : ((c.balanceWei (c.toChecksum (c.addressOfKey privateKey)) : ℚ)
        / 10 ^ 18) < amountBnb) :
    send_bnb c privateKey toAddress amountBnb =
      (.error (.insufficientBalance
        ((c.balanceWei (c.toChecksum (c.addressOfKey privateKey)) : ℚ)
          / 10 ^ 18) amountBnb), []) := by
  simp [send_bnb, get_balance, hv, hlt]

/-- Witness for C5: a zero-balance chain and a request of one BNB. -/
theorem send_bnb_balance_gate_witness :
    send_bnb testChain "key" "0xdest" 1 =
      (.error (.insufficientBalance 0 1), []) := by
  have h := send_bnb_balance_gate testChain "key" "0xdest" 1 rfl
    (by norm_num [testChain])
  simpa [testChain] using h

/-- Claim C9: a transaction returned by either builder carries as nonce
exactly the transaction count the chain collaborator reports for the
checksummed sender at the time of the call; the builders read it from
the collaborator record on every call and keep no state of their own. -/
theorem nonce_read_fresh (c : ChainState) (tok : TokenContract)
    (tokenAddress fromAddress toAddress : String) (amount : ℚ)
    (gasPrice : Option ℕ) :
    (∀ tx, create_transaction c fromAddress toAddress amount gasPrice =
        .ok tx → tx.nonce = c.txCount (c.toChecksum fromAddress)) ∧
    (∀ tx, create_token_transfer_transaction c tok tokenAddress
        fromAddress toAddress amount gasPrice = .ok tx →
        tx.nonce = c.txCount (c.toChecksum fromAddress)) := by
  constructor
  · intro tx h
    simp only [create_transaction] at h
    split at h
    · exact absurd h (by simp)
    · split at h
      · exact absurd h (by simp)
      · simp only [Except.ok.injEq] at h
        subst h
        rfl
  · intro tx h
    simp only [create_token_transfer_transaction, get_token_info] at h
    split at h
    · exact absurd h (by simp)
    · split at h
      · exact absurd h (by simp)
      · split at h
        · exact absurd h (by simp)
        · simp only [Except.ok.injEq] at h
          subst h
          rfl

/-- The native transaction built on `testChain` from sender a to
recipient t for two BNB at gas price 5. -/
def txNative7 : Tx where
  nonce := 7
  toAddr := "t"
  value := 2 * 10 ^ 18
  gas := DEFAULT_GAS_LIMIT
  gasPrice := 5
  chainId := BSC_TESTNET_CHAIN_ID
  data := none

/-- The token transaction built on `testChain` for contract T from
sender f to recipient t for two tokens at six decimals. -/
def txToken7 : Tx where
  nonce := 7
  toAddr := "T"
  value := 0
  gas := TOKEN_TRANSFER_GAS_LIMIT
  gasPrice := 5
  chainId := BSC_TESTNET_CHAIN_ID
  data := some ("t", 2000000)

/-- Witness for C9 on `testChain`, whose transaction count is 7. -/
theorem nonce_read_fresh_witness :
    txNative7.nonce = 7 ∧ txToken7.nonce = 7 := by
  have h := nonce_read_fresh testChain tokSix "T" "a" "t" 2 (some 5)
  refine ⟨h.1 txNative7 ?_, h.2 txToken7 ?_⟩
  · show create_transaction testChain "a" "t" 2 (some 5) = .ok txNative7
    simp [create_transaction, testChain, toWei, pyInt, txNative7,
      Int.floor_intCast, DEFAULT_GAS_LIMIT, BSC_TESTNET_CHAIN_ID]
    norm_num
  · show create_token_transfer_transaction testChain tokSix "T" "a" "t"
      2 (some 5) = .ok txToken7
    simp [create_token_transfer_transaction, get_token_info, testChain,
      tokSix, amountRaw, pyInt, txToken7, TOKEN_TRANSFER_GAS_LIMIT,
      BSC_TESTNET_CHAIN_ID]
    norm_num

/-- Claim C8 (amended): the decimals value used for scaling is the one
resolved by the token-info reader — the contract value whenever the
decimals call succeeds, and the fallback 18 when it raises — and the
transfer builder still proceeds in the fallback case: the scaled call
payload always uses the resolved decimals, and an unreadable decimals
call does not stop the builder from returning a transaction. -/
theorem token_decimals_resolution (c : ChainState)
    (tok : TokenContract) (tokenAddress fromAddress toAddress : String)
    (amount : ℚ) (gasPrice : Option ℕ)
    (hv : c.isAddress tokenAddress = true) :
    (∀ d, tok.decimalsResult = some d →
      ∀ info, get_token_info c tok tokenAddress = .ok info →
        info.decimals = d) ∧
    (tok.decimalsResult = none →
      ∀ info, get_token_info c tok tokenAddress = .ok info →
        info.decimals = 18) ∧
    (∀ tx, create_token_transfer_transaction c tok tokenAddress
        fromAddress toAddress amount gasPrice = .ok tx →
      ∀ info, get_token_info c tok tokenAddress = .ok info →
        tx.data = some (c.toChecksum toAddress,
          amountRaw amount info.decimals)) ∧
    (tok.decimalsResult = none → c.isAddress fromAddress = true →
      c.isAddress toAddress = true →
      ∃ tx, create_token_transfer_transaction c tok tokenAddress
        fromAddress toAddress amount gasPrice = .ok tx) := by
  refine ⟨?_, ?_, ?_, ?_⟩
  · intro d hd info hinfo
    simp [get_token_info, hv] at hinfo
    subst hinfo
    simp [hd]
  · intro hd info hinfo
    simp [get_token_info, hv] at hinfo
    subst hinfo
    simp [hd]
  · intro tx htx info hinfo
    simp [get_token_info, hv] at hinfo
    subst hinfo
    simp only [create_token_transfer_transaction, get_token_info] at htx
    split at htx
    · exact absurd htx (by simp)
    · rename_i info heq
      rw [if_neg (by simp [hv])] at heq
      simp only [Except.ok.injEq] at heq
      subst heq
      split at htx
      · exact absurd htx (by simp)
      · split at htx
        · exact absurd htx (by simp)
        · simp only [Except.ok.injEq] at htx
          subst htx
          rfl
  · intro _ hf ht
    simp only [create_token_transfer_transaction, get_token_info]
    rw [if_neg (by simp [hv])]
    simp [hf, ht]

/-- Witness for C8 (amended): on the concrete chain and the contract
whose decimals call raises, the resolved decimals is the fallback 18 and
the builder still returns a transaction. -/
theorem token_decimals_resolution_witness :
    ((get_token_info testChain noDecTok "T").map TokenInfo.decimals =
      .ok 18) ∧
    (∃ tx, create_token_transfer_transaction testChain noDecTok "T" "f"
      "t" 1 (some 5) = .ok tx) := by
  have h := token_decimals_resolution testChain noDecTok "T" "f" "t" 1
    (some 5) rfl
  refine ⟨?_, h.2.2.2 rfl rfl rfl⟩
  have h18 := h.2.1 rfl
    { address := "T", name := "Sample", symbol := "SMP", decimals := 18
      totalSupply := 1000 } rfl
  simp [get_token_info, testChain, noDecTok, Except.map, h18]

/-- Counterexample for C8 as stated: on a contract whose decimals call
cannot be read, the token-info reader reports 18 and the transfer
builder proceeds, scaling one token to 10 to the 18 base units. -/
theorem token_default_decimals_counterexample :
    get_token_info testChain noDecTok "T" =
      .ok { address := "T", name := "Sample", symbol := "SMP"
            decimals := 18, totalSupply := 1000 } ∧
    create_token_transfer_transaction testChain noDecTok "T" "f" "t" 1
        (some 5) =
      .ok { nonce := 7, toAddr := "T", value := 0
            gas := TOKEN_TRANSFER_GAS_LIMIT, gasPrice := 5
            chainId := BSC_TESTNET_CHAIN_ID
            data := some ("t", 10 ^ 18) } := by
  constructor
  · rfl
  · simp [create_token_transfer_transaction, get_token_info, testChain,
      noDecTok, amountRaw, pyInt, TOKEN_TRANSFER_GAS_LIMIT,
      BSC_TESTNET_CHAIN_ID]
    norm_num

/-- Claim C6 (amended): the native broadcaster matches the normalized
lower-cased error text against the taxonomy and never surfaces a raw
unclassified error — a matched insufficient-funds text maps to its
variant, an entirely unmatched text becomes the generic broadcast-failed
error carrying the original message — while the token broadcaster
re-raises every raw transport error unclassified. -/
theorem broadcast_error_classification :
    (∀ msg : String, (bnbClassifyBroadcastError msg).isRaw = false) ∧
    (∀ msg : String,
      hasSub "insufficient funds" (pyLower msg) = true →
        bnbClassifyBroadcastError msg = .insufficientFunds) ∧
    (∀ msg : String, noPatternMatches msg = true →
        bnbClassifyBroadcastError msg = .broadcastFailed msg.toList) ∧
    (∀ msg : String,
      tokenBroadcastError msg = .rawUnclassified msg.toList) := by
  refine ⟨?_, ?_, ?_, ?_⟩
  · intro msg
    simp only [bnbClassifyBroadcastError]
    repeat' split
    all_goals rfl
  · intro msg h
    simp [bnbClassifyBroadcastError, h]
  · intro msg h
    simp only [noPatternMatches, Bool.and_eq_true,
      Bool.not_eq_true'] at h
    obtain ⟨⟨⟨⟨⟨⟨h1, h2⟩, h3⟩, h4⟩, h5⟩, h6⟩, h7⟩ := h
    simp [bnbClassifyBroadcastError, h1, h2, h3, h4, h5, h6, h7]
  · intro msg
    rfl

/-- Witness for C6 (amended) on concrete error texts. -/
theorem broadcast_error_classification_witness :
    bnbClassifyBroadcastError "Insufficient funds for gas" =
      .insufficientFunds ∧
    bnbClassifyBroadcastError "some odd failure" =
      .broadcastFailed "some odd failure".toList ∧
    tokenBroadcastError "execution reverted" =
      .rawUnclassified "execution reverted".toList :=
  ⟨broadcast_error_classification.2.1 "Insufficient funds for gas"
     (by decide),
   broadcast_error_classification.2.2.1 "some odd failure" (by decide),
   broadcast_error_classification.2.2.2 "execution reverted"⟩

/-- Counterexample for C6 as stated: on the token path a submission
failure whose text names insufficient funds is surfaced as the raw
unclassified error, not as the matched taxonomy variant the native path
produces for the same text. -/
theorem token_broadcast_unclassified_counterexample :
    tokenBroadcastError "insufficient funds" =
      .rawUnclassified "insufficient funds".toList ∧
    bnbClassifyBroadcastError "insufficient funds" =
      .insufficientFunds ∧
    tokenBroadcastError "insufficient funds" ≠
      bnbClassifyBroadcastError "insufficient funds" := by decide

/-- When the receipt source never yields a receipt, the polling loop
started inside the observation window stops with the timeout error, and
the elapsed time at which it gives up lies within one poll interval
above the deadline. -/
lemma wait_loop_none_result (g : ℕ → Option Receipt) (hsh : String)
    (timeout : ℕ) (hg : ∀ u, g u = none) :
    ∀ n t, timeout - t ≤ n → t ≤ timeout + 1 →
      ∃ e, wait_loop g hsh timeout t = .error e ∧
        timeout ≤ e ∧ e < timeout + 2 := by
  intro n
  induction n with
  | zero =>
    intro t hle hub
    have hnt : ¬ t < timeout := by omega
    rw [wait_loop, if_neg hnt]
    exact ⟨t, rfl, by omega, by omega⟩
  | succ n ih =>
    intro t hle hub
    by_cases hlt : t < timeout
    · rw [wait_loop, if_pos hlt, hg t]
      exact ih (t + 2) (by omega) (by omega)
    · rw [wait_loop, if_neg hlt]
      exact ⟨t, rfl, by omega, by omega⟩

/-- A successful polling-loop result comes from an observed receipt, and
its status string is decided by that receipt's status bit. -/
lemma wait_loop_ok_status (g : ℕ → Option Receipt) (hsh : String)
    (timeout : ℕ) :
    ∀ n t res, timeout - t ≤ n →
      wait_loop g hsh timeout t = .ok res →
      ∃ u r, g u = some r ∧
        res.status = (if r.status = 1 then "Success" else "Failed") ∧
        res.gasUsed = r.gasUsed ∧ res.blockNumber = r.blockNumber := by
  intro n
  induction n with
  | zero =>
    intro t res hle h
    have hnt : ¬ t < timeout := by omega
    rw [wait_loop, if_neg hnt] at h
    exact absurd h (by simp)
  | succ n ih =>
    intro t res hle h
    by_cases hlt : t < timeout
    · rw [wait_loop, if_pos hlt] at h
      cases hgt : g t with
      | some r =>
        rw [hgt] at h
        simp only [Except.ok.injEq] at h
        subst h
        exact ⟨t, r, hgt, rfl, rfl, rfl⟩
      | none =>
        rw [hgt] at h
        exact ih (t + 2) res (by omega) h
    · rw [wait_loop, if_neg hlt] at h
      exact absurd h (by simp)

/-- Claim C7: against a receipt source that never returns a receipt the
watcher stops with the timeout error, giving up at an elapsed time
between the deadline and one 2-second poll interval past it — it cannot
hang, the loop being total by construction; a missing receipt only makes
the loop poll again; and a returned result always comes from an observed
receipt whose status bit decides between Success and Failed. -/
theorem wait_for_confirmation_behavior (g : ℕ → Option Receipt)
    (txHash : String) (timeout : ℕ) :
    ((∀ u, g u = none) →
      ∃ e, wait_for_confirmation g txHash timeout = .error e ∧
        timeout ≤ e ∧ e < timeout + 2) ∧
    (∀ res, wait_for_confirmation g txHash timeout = .ok res →
      ∃ u r, g u = some r ∧
        res.status = (if r.status = 1 then "Success" else "Failed") ∧
        res.gasUsed = r.gasUsed ∧ res.blockNumber = r.blockNumber) := by
  constructor
  · intro hg
    exact wait_loop_none_result g txHash timeout hg timeout 0
      (by omega) (by omega)
  · intro res h
    exact wait_loop_ok_status g txHash timeout timeout 0 res
      (by omega) h

/-- Witness for C7: with a one-second window and no receipt ever, the
watcher raises the timeout error after the single poll, at elapsed time
2 — within one poll interval of the deadline. -/
theorem wait_for_confirmation_behavior_witness :
    wait_for_confirmation (fun _ => none) "h" 1 = .error 2 ∧
    (1 : ℕ) ≤ 2 ∧ (2 : ℕ) < 1 + 2 := by
  obtain ⟨e, he, hle, hlt⟩ :=
    (wait_for_confirmation_behavior (fun _ => none) "h" 1).1
      (fun u => rfl)
  have heval : wait_for_confirmation (fun _ => none) "h" 1 =
      .error 2 := by
    show wait_loop (fun _ => none) "h" 1 0 = .error 2
    rw [wait_loop, if_pos (by omega)]
    show wait_loop (fun _ => none) "h" 1 2 = .error 2
    rw [wait_loop, if_neg (by omega)]
  exact ⟨heval, by omega, by omega⟩

end BscWallet
